import Mathlib

/-!
# Verification of the yt-dlp cache-and-dispatch service

A shallow embedding of `src/services/ytdlp/server.py` (class `YTDLPService`)
together with theorems settling the frozen claims about it.

Modelling conventions:
* Raw extraction results (the loosely structured dictionaries returned by the
  external yt-dlp collaborator) are records of `Option` fields; `none` models
  an absent dictionary key (`dict.get` with a default).
* Time is modelled by `Nat` ticks; `datetime.now() - timestamp < ttl` becomes
  truncated `Nat` subtraction, which agrees with the Python comparison for all
  monotone clocks (and also when the difference would be negative, since both
  a negative timedelta and `0` compare below any positive ttl).
* The service cache (a Python `dict`) is an association list with the Python
  insertion/overwrite semantics; `self.request_count`/`self.error_count` are
  fields of an explicit `ServiceState` threaded through the handlers.
* The external collaborator is a parameter: for `/extract` the outcome of the
  `ydl.extract_info` call (`none` = it raised or returned a falsy value, both
  of which `_extract_info_sync` turns into `None`), for `/search` a function
  from the query string actually dispatched to an `ExtResult` (raising and
  returning a falsy value are observably different there).
-/

/-- Raw thumbnail dictionary as consumed by `_clean_thumbnails` and
`_get_best_thumbnail`: every key may be absent. -/
structure RawThumbnail where
  id : Option String
  url : Option String
  width : Option Nat
  height : Option Nat
  resolution : Option String
deriving DecidableEq

/-- Raw format dictionary as consumed by `_clean_formats`. -/
structure RawFormat where
  format_id : Option String
  url : Option String
  ext : Option String
  format : Option String
  protocol : Option String
  vcodec : Option String
  acodec : Option String
  width : Option Nat
  height : Option Nat
  fps : Option Nat
  tbr : Option Nat
  vbr : Option Nat
  abr : Option Nat
  asr : Option Nat
  filesize : Option Nat
  quality : Option Nat
  language : Option String
  preference : Option Int
deriving DecidableEq

/-- Raw per-video dictionary returned by the external collaborator, with the
keys read by `_extract_info_sync` and the search-entry loop. -/
structure RawInfo where
  id : Option String
  title : Option String
  description : Option String
  duration : Option Nat
  webpage_url : Option String
  thumbnails : Option (List RawThumbnail)
  uploader : Option String
  upload_date : Option String
  view_count : Option Nat
  extractor : Option String
  extractor_key : Option String
  live_status : Option String
  tags : Option (List String)
  categories : Option (List String)
  formats : Option (List RawFormat)
deriving DecidableEq

/-- A raw info record with every optional dictionary key absent. -/
def emptyRawInfo : RawInfo :=
  ⟨none, none, none, none, none, none, none, none, none, none, none, none,
   none, none, none⟩

/-- Cleaned format record produced by `_clean_formats`: the four string fields
read with default `''`, every other field read with default `None`. -/
structure CleanFormat where
  format_id : String
  url : String
  ext : String
  format : String
  protocol : Option String
  vcodec : Option String
  acodec : Option String
  width : Option Nat
  height : Option Nat
  fps : Option Nat
  tbr : Option Nat
  vbr : Option Nat
  abr : Option Nat
  asr : Option Nat
  filesize : Option Nat
  quality : Option Nat
  language : Option String
  preference : Option Int
deriving DecidableEq

/-- Cleaned thumbnail record produced by `_clean_thumbnails`. -/
structure CleanThumbnail where
  id : Option String
  url : String
  width : Option Nat
  height : Option Nat
  resolution : Option String
deriving DecidableEq

/-- The `clean_info` dictionary built by `_extract_info_sync`. -/
structure VideoInfo where
  id : String
  title : String
  description : String
  duration : Option Nat
  webpage_url : String
  thumbnail : String
  uploader : String
  upload_date : String
  view_count : Option Nat
  extractor : String
  extractor_key : String
  available : Bool
  live_status : Option String
  tags : List String
  categories : List String
  formats : List CleanFormat
  thumbnails : List CleanThumbnail
deriving DecidableEq

/-- The `video_info` dictionary built per entry inside `_search_sync` (it has
no `tags`/`categories` keys, and `webpage_url` defaults to `''` there). -/
structure SearchVideo where
  id : String
  title : String
  description : String
  duration : Option Nat
  webpage_url : String
  thumbnail : String
  uploader : String
  upload_date : String
  view_count : Option Nat
  extractor : String
  extractor_key : String
  available : Bool
  live_status : Option String
  formats : List CleanFormat
  thumbnails : List CleanThumbnail
deriving DecidableEq

/-- The dictionary returned by `_search_sync` on success. -/
structure SearchResult where
  videos : List SearchVideo
  total_count : Nat
  query : String
deriving DecidableEq

/-- The sort key `lambda x: (x.get('width', 0), x.get('height', 0))` used by
`_get_best_thumbnail`. -/
def thumbKey (t : RawThumbnail) : Nat × Nat :=
  (t.width.getD 0, t.height.getD 0)

/-- Python tuple comparison `a <= b` on `(width, height)` pairs
(lexicographic). -/
def pairLe (a b : Nat × Nat) : Bool :=
  decide (a.1 < b.1) || (decide (a.1 = b.1) && decide (a.2 ≤ b.2))

/-- Python tuple comparison `a < b` on `(width, height)` pairs
(lexicographic). -/
def pairLt (a b : Nat × Nat) : Bool :=
  decide (a.1 < b.1) || (decide (a.1 = b.1) && decide (a.2 < b.2))

/-- The ordering relation realised by `sorted(..., key=..., reverse=True)`:
`a` may sit before `b` exactly when `key b <= key a`.  Python's sort is
stable, and a stable sort with this relation is exactly what
`List.insertionSort` computes with it. -/
def thumbGe (a b : RawThumbnail) : Prop :=
  pairLe (thumbKey b) (thumbKey a) = true

instance : DecidableRel thumbGe := fun a b =>
  inferInstanceAs (Decidable (_ = true))

/-- `YTDLPService._get_best_thumbnail`: stable-sort the thumbnails by
`(width, height)` descending and return the first one's `url` (default `''`);
an empty list yields `""`. -/
def getBestThumbnail (thumbnails : List RawThumbnail) : String :=
  match List.insertionSort thumbGe thumbnails with
  | [] => ""
  | t :: _ => t.url.getD ""

/-- `YTDLPService._clean_formats`, one output record per input record. -/
def cleanFormats (formats : List RawFormat) : List CleanFormat :=
  formats.map fun fmt =>
    { format_id := fmt.format_id.getD ""
      url := fmt.url.getD ""
      ext := fmt.ext.getD ""
      format := fmt.format.getD ""
      protocol := fmt.protocol
      vcodec := fmt.vcodec
      acodec := fmt.acodec
      width := fmt.width
      height := fmt.height
      fps := fmt.fps
      tbr := fmt.tbr
      vbr := fmt.vbr
      abr := fmt.abr
      asr := fmt.asr
      filesize := fmt.filesize
      quality := fmt.quality
      language := fmt.language
      preference := fmt.preference }

/-- `YTDLPService._clean_thumbnails`. -/
def cleanThumbnails (thumbnails : List RawThumbnail) : List CleanThumbnail :=
  thumbnails.map fun thumb =>
    { id := thumb.id
      url := thumb.url.getD ""
      width := thumb.width
      height := thumb.height
      resolution := thumb.resolution }

/-- The `clean_info` dictionary that `_extract_info_sync` builds from a truthy
raw result: note `webpage_url` defaults to the requested `url`, every other
string field defaults to `''`. -/
def cleanInfo (url : String) (info : RawInfo) : VideoInfo :=
  { id := info.id.getD ""
    title := info.title.getD ""
    description := info.description.getD ""
    duration := info.duration
    webpage_url := info.webpage_url.getD url
    thumbnail := getBestThumbnail (info.thumbnails.getD [])
    uploader := info.uploader.getD ""
    upload_date := info.upload_date.getD ""
    view_count := info.view_count
    extractor := info.extractor.getD ""
    extractor_key := info.extractor_key.getD ""
    available := true
    live_status := info.live_status
    tags := info.tags.getD []
    categories := info.categories.getD []
    formats := cleanFormats (info.formats.getD [])
    thumbnails := cleanThumbnails (info.thumbnails.getD []) }

/-- `YTDLPService._extract_info_sync url format_override`, with the outcome of
the guarded `ydl.extract_info` call passed in as `raw` (`none` models both a
raised exception, caught by the `try`, and a falsy `info`; both return
`None`).  The `format_override` only alters the yt-dlp options, never the
normalisation, so it is unused here. -/
def extractInfoSync (url : String) (format_override : Option String)
    (raw : Option RawInfo) : Option VideoInfo :=
  match raw with
  | none => none
  | some info => some (cleanInfo url info)

/-- Raw search dictionary: `entries = none` models a dictionary without an
`'entries'` key (the `'entries' not in search_results` branch); inside the
list, `none` models a null entry skipped by `if entry:`. -/
structure RawSearchResult where
  entries : Option (List (Option RawInfo))
deriving DecidableEq

/-- Outcome of the guarded `ydl.extract_info(search_query)` call inside
`_search_sync`: it either raised (caught by the surrounding `try`, which then
returns `None`) or produced a value (`none` models a falsy result such as
`None` or an empty dict). -/
inductive ExtResult where
  | raised : ExtResult
  | value : Option RawSearchResult → ExtResult
deriving DecidableEq

/-- The f-string `f"ytsearch{max_results}:{query}"` built by `_search_sync`
before dispatching to the external collaborator. -/
def searchQueryString (max_results : Nat) (query : String) : String :=
  "ytsearch" ++ toString max_results ++ ":" ++ query

/-- The per-entry `video_info` dictionary built inside `_search_sync`. -/
def searchVideoInfo (entry : RawInfo) : SearchVideo :=
  { id := entry.id.getD ""
    title := entry.title.getD ""
    description := entry.description.getD ""
    duration := entry.duration
    webpage_url := entry.webpage_url.getD ""
    thumbnail := getBestThumbnail (entry.thumbnails.getD [])
    uploader := entry.uploader.getD ""
    upload_date := entry.upload_date.getD ""
    view_count := entry.view_count
    extractor := entry.extractor.getD ""
    extractor_key := entry.extractor_key.getD ""
    available := true
    live_status := entry.live_status
    formats := cleanFormats (entry.formats.getD [])
    thumbnails := cleanThumbnails (entry.thumbnails.getD []) }

/-- `YTDLPService._search_sync query max_results`: build the rewritten query
string, consult the external collaborator at it, and normalise.  A raised
exception yields `none` (the `except` branch returns `None`); a falsy result
or one without an `'entries'` key yields the empty success result; otherwise
take the first `max_results` entries, drop null ones, and normalise each. -/
def searchSync (query : String) (max_results : Nat)
    (external : String → ExtResult) : Option SearchResult :=
  match external (searchQueryString max_results query) with
  | ExtResult.raised => none
  | ExtResult.value none =>
      some { videos := [], total_count := 0, query := query }
  | ExtResult.value (some sr) =>
      match sr.entries with
      | none => some { videos := [], total_count := 0, query := query }
      | some entries =>
          let videos := ((entries.take max_results).filterMap id).map
            searchVideoInfo
          some { videos := videos, total_count := videos.length, query := query }

/-- A cached payload: the `/extract` handler stores a cleaned video info, the
`/search` handler a search result, in the one shared `self.cache` dict. -/
inductive Payload where
  | video : VideoInfo → Payload
  | searchRes : SearchResult → Payload
deriving DecidableEq

/-- A value of `self.cache`: `{'data': ..., 'timestamp': datetime.now()}`. -/
structure CacheEntry where
  data : Payload
  timestamp : Nat
deriving DecidableEq

/-- Python-dict lookup `self.cache[cache_key]` / `cache_key in self.cache` on
the association-list model. -/
def cacheLookup (cache : List (String × CacheEntry)) (key : String) :
    Option CacheEntry :=
  match cache with
  | [] => none
  | (k, e) :: rest => if k = key then some e else cacheLookup rest key

/-- Python-dict assignment `self.cache[cache_key] = {'data': v, 'timestamp':
now}`: overwrite in place if the key exists, else append. -/
def cacheSet (cache : List (String × CacheEntry)) (key : String) (v : Payload)
    (now : Nat) : List (String × CacheEntry) :=
  match cache with
  | [] => [(key, ⟨v, now⟩)]
  | (k, e) :: rest =>
      if k = key then (key, ⟨v, now⟩) :: rest
      else (k, e) :: cacheSet rest key v now

/-- The lazy-expiry read performed inline by both handlers: a stored entry is
a hit only while `now - timestamp < ttl`; an absent key and a stale entry are
both misses (the stale entry is left in place). -/
def cacheGet (cache : List (String × CacheEntry)) (key : String)
    (now ttl : Nat) : Option Payload :=
  match cacheLookup cache key with
  | none => none
  | some e => if now - e.timestamp < ttl then some e.data else none

/-- The mutable service state threaded through the handlers: the two counters,
the cache dict, and the configured `cache_ttl`. -/
structure ServiceState where
  request_count : Nat
  error_count : Nat
  cache : List (String × CacheEntry)
  cache_ttl : Nat
deriving DecidableEq

/-- A JSON response: `ok` carries the `data` payload of a `success: true`
response, `err` the status code and error string of a failure. -/
inductive Response where
  | ok : Payload → Response
  | err : Nat → String → Response
deriving DecidableEq

/-- `YTDLPService.extract_info` (the `/extract` handler) on parsed input:
validate the url, bump `request_count`, consult the cache under key
`"extract:" ++ url`, and on a miss run `_extract_info_sync` (whose external
outcome is the parameter `raw`), caching on success and bumping
`error_count` with a 404 on failure. -/
def extract_info (st : ServiceState) (url : String) (fmt : Option String)
    (raw : Option RawInfo) (now : Nat) : Response × ServiceState :=
  if url = "" then
    (Response.err 400 "URL is required", st)
  else
    let st1 : ServiceState := { st with request_count := st.request_count + 1 }
    let cache_key := "extract:" ++ url
    match cacheGet st1.cache cache_key now st1.cache_ttl with
    | some payload => (Response.ok payload, st1)
    | none =>
        match extractInfoSync url fmt raw with
        | some info =>
            let newCache := cacheSet st1.cache cache_key (Payload.video info) now
            (Response.ok (Payload.video info), { st1 with cache := newCache })
        | none =>
            (Response.err 404 "Failed to extract video information",
             { st1 with error_count := st1.error_count + 1 })

/-- `YTDLPService.search` (the `/search` handler) on parsed input: validate
the query, bump `request_count`, consult the cache under key
`"search:" ++ query ++ ":" ++ max_results`, and on a miss run `_search_sync`,
caching any non-`None` result (an empty result is cached as a success) and
bumping `error_count` with a 500 when `_search_sync` returned `None`. -/
def search (st : ServiceState) (query : String) (max_results : Nat)
    (external : String → ExtResult) (now : Nat) : Response × ServiceState :=
  if query = "" then
    (Response.err 400 "Query is required", st)
  else
    let st1 : ServiceState := { st with request_count := st.request_count + 1 }
    let cache_key := "search:" ++ query ++ ":" ++ toString max_results
    match cacheGet st1.cache cache_key now st1.cache_ttl with
    | some payload => (Response.ok payload, st1)
    | none =>
        match searchSync query max_results external with
        | some results =>
            let newCache :=
              cacheSet st1.cache cache_key (Payload.searchRes results) now
            (Response.ok (Payload.searchRes results),
             { st1 with cache := newCache })
        | none =>
            (Response.err 500 "Search failed",
             { st1 with error_count := st1.error_count + 1 })

/-- `YTDLPService.clear_cache` (the `/cache/clear` handler): empty the dict. -/
def clear_cache (st : ServiceState) : ServiceState :=
  { st with cache := [] }

/-- `YTDLPService.cleanup_cache` (the periodic sweep): delete every entry with
`now - timestamp > cache_ttl`. -/
def cleanup_cache (st : ServiceState) (now : Nat) : ServiceState :=
  { st with cache :=
      st.cache.filter fun p => decide (now - p.2.timestamp ≤ st.cache_ttl) }

/-- Modelled from the spec's words (§3 invariant) for comparison with
`getBestThumbnail`: the first candidate attaining the greatest
`(width, height)` lexicographic pair — a later candidate replaces the current
best only when its key is strictly greater, so ties go to the earliest. -/
def specBestThumbnail : List RawThumbnail → Option RawThumbnail
  | [] => none
  | t :: ts =>
      match specBestThumbnail ts with
      | none => some t
      | some b => if pairLt (thumbKey t) (thumbKey b) then some b else some t

/-- Sample cleaned video used by concrete witnesses. -/
def videoW : VideoInfo := cleanInfo "u" emptyRawInfo

/-- Sample cached payload used by concrete witnesses. -/
def payloadW : Payload := Payload.video videoW

/-- Sample cache entry inserted at tick 0, used by concrete witnesses. -/
def entryW : CacheEntry := ⟨payloadW, 0⟩

/-- Sample one-entry cache used by concrete witnesses. -/
def cacheW : List (String × CacheEntry) := [("extract:u", entryW)]

/-- Sample fresh service state (ttl 24 ticks) used by concrete witnesses. -/
def stW : ServiceState := ⟨0, 0, [], 24⟩

/-- Sample service state holding one expired entry, used by witnesses. -/
def stExpiredW : ServiceState := ⟨0, 0, cacheW, 24⟩

/-- Sample raw search entry list: five entries, one of them null. -/
def sampleEntries : List (Option RawInfo) :=
  [some emptyRawInfo, none, some emptyRawInfo, some emptyRawInfo,
   some emptyRawInfo]

/-- Sample external collaborator answering only the rewritten query
`ytsearch3:lofi` and raising on anything else. -/
def extSample : String → ExtResult := fun s =>
  if s = searchQueryString 3 "lofi" then
    ExtResult.value (some ⟨some sampleEntries⟩)
  else ExtResult.raised

/-- The spec's §8 thumbnail example `[{w:120,h:90},{w:640,h:480},{w:640,h:360}]`. -/
def thumbsW : List RawThumbnail :=
  [⟨none, some "u120x90", some 120, some 90, none⟩,
   ⟨none, some "u640x480", some 640, some 480, none⟩,
   ⟨none, some "u640x360", some 640, some 360, none⟩]

lemma pairLe_eq_not_pairLt (a b : Nat × Nat) : pairLe a b = !pairLt b a := by
  rw [Bool.eq_iff_iff]
  simp only [pairLe, pairLt, Bool.or_eq_true, Bool.and_eq_true,
    decide_eq_true_eq, Bool.not_eq_true', Bool.or_eq_false_iff,
    Bool.and_eq_false_iff, decide_eq_false_iff_not]
  omega

lemma pairLe_refl (a : Nat × Nat) : pairLe a a = true := by
  simp [pairLe]

lemma pairLe_of_pairLt {a b : Nat × Nat} (h : pairLt a b = true) :
    pairLe a b = true := by
  simp only [pairLt, Bool.or_eq_true, Bool.and_eq_true, decide_eq_true_eq] at h
  simp only [pairLe, Bool.or_eq_true, Bool.and_eq_true, decide_eq_true_eq]
  omega

lemma pairLe_trans {a b c : Nat × Nat} (h1 : pairLe a b = true)
    (h2 : pairLe b c = true) : pairLe a c = true := by
  simp only [pairLe, Bool.or_eq_true, Bool.and_eq_true, decide_eq_true_eq]
    at h1 h2 ⊢
  omega

lemma specBestThumbnail_eq_none {l : List RawThumbnail} :
    specBestThumbnail l = none ↔ l = [] := by
  cases l with
  | nil => simp [specBestThumbnail]
  | cons t ts =>
      simp only [specBestThumbnail]
      cases specBestThumbnail ts with
      | none => simp
      | some b => by_cases h : pairLt (thumbKey t) (thumbKey b) = true <;>
          simp [h]

lemma head_insertionSort_eq_specBest (l : List RawThumbnail) :
    (List.insertionSort thumbGe l).head? = specBestThumbnail l := by
  induction l with
  | nil => rfl
  | cons t ts ih =>
      rw [List.insertionSort]
      cases h : List.insertionSort thumbGe ts with
      | nil =>
          rw [h] at ih
          simp only [List.orderedInsert, List.head?_cons]
          rw [specBestThumbnail, ← ih]
          rfl
      | cons b rest =>
          rw [h] at ih
          simp only [List.head?_cons] at ih
          rw [specBestThumbnail, ← ih]
          simp only [List.orderedInsert]
          by_cases hge : thumbGe t b
          · rw [if_pos hge]
            have hlt : pairLt (thumbKey t) (thumbKey b) = false := by
              have := pairLe_eq_not_pairLt (thumbKey b) (thumbKey t)
              rw [thumbGe] at hge
              rw [hge] at this
              cases hcase : pairLt (thumbKey t) (thumbKey b) with
              | false => rfl
              | true => rw [hcase] at this; exact absurd this.symm (by simp)
            simp [hlt]
          · rw [if_neg hge]
            have hlt : pairLt (thumbKey t) (thumbKey b) = true := by
              have := pairLe_eq_not_pairLt (thumbKey b) (thumbKey t)
              rw [thumbGe] at hge
              cases hcase : pairLt (thumbKey t) (thumbKey b) with
              | true => rfl
              | false =>
                  rw [hcase] at this
                  simp only [Bool.not_false] at this
                  exact absurd this hge
            simp [hlt]

lemma specBestThumbnail_firstMax :
    ∀ (l : List RawThumbnail) (t : RawThumbnail),
      specBestThumbnail l = some t →
      ∃ pre post, l = pre ++ t :: post
        ∧ (∀ u ∈ pre, pairLt (thumbKey u) (thumbKey t) = true)
        ∧ (∀ u ∈ l, pairLe (thumbKey u) (thumbKey t) = true) := by
  intro l
  induction l with
  | nil => intro t h; exact absurd h (by simp [specBestThumbnail])
  | cons a ts ih =>
      intro t h
      rw [specBestThumbnail] at h
      split at h
      · rename_i hts
        simp only [Option.some.injEq] at h
        subst h
        have hts' : ts = [] := specBestThumbnail_eq_none.mp hts
        subst hts'
        refine ⟨[], [], by simp, by simp, ?_⟩
        intro u hu
        simp only [List.mem_singleton] at hu
        subst hu
        exact pairLe_refl _
      · rename_i b hts
        by_cases hlt : pairLt (thumbKey a) (thumbKey b) = true
        · rw [if_pos hlt] at h
          simp only [Option.some.injEq] at h
          subst h
          obtain ⟨pre, post, heq, hpre, hall⟩ := ih _ hts
          refine ⟨a :: pre, post, by rw [heq]; rfl, ?_, ?_⟩
          · intro u hu
            rcases List.mem_cons.mp hu with h1 | h2
            · subst h1; exact hlt
            · exact hpre u h2
          · intro u hu
            rcases List.mem_cons.mp hu with h1 | h2
            · subst h1; exact pairLe_of_pairLt hlt
            · exact hall u h2
        · rw [if_neg hlt] at h
          simp only [Option.some.injEq] at h
          subst h
          have hlt' : pairLt (thumbKey a) (thumbKey b) = false := by
            cases hc : pairLt (thumbKey a) (thumbKey b) with
            | false => rfl
            | true => exact absurd hc hlt
          have hba : pairLe (thumbKey b) (thumbKey a) = true := by
            rw [pairLe_eq_not_pairLt, hlt']
            rfl
          obtain ⟨pre, post, heq, hpre, hall⟩ := ih b hts
          refine ⟨[], ts, by simp, by simp, ?_⟩
          intro u hu
          rcases List.mem_cons.mp hu with h1 | h2
          · subst h1; exact pairLe_refl _
          · exact pairLe_trans (hall u h2) hba

lemma cacheLookup_cacheSet_self (cache : List (String × CacheEntry))
    (key : String) (v : Payload) (now : Nat) :
    cacheLookup (cacheSet cache key v now) key = some ⟨v, now⟩ := by
  induction cache with
  | nil => simp [cacheSet, cacheLookup]
  | cons q rest ih =>
      obtain ⟨k, e⟩ := q
      by_cases h : k = key
      · simp [cacheSet, h, cacheLookup]
      · simp [cacheSet, h, cacheLookup, ih]

lemma cacheLookup_eq_none_of_not_mem (cache : List (String × CacheEntry))
    (key : String) (h : key ∉ cache.map Prod.fst) :
    cacheLookup cache key = none := by
  induction cache with
  | nil => rfl
  | cons q rest ih =>
      obtain ⟨k, e⟩ := q
      simp only [List.map_cons, List.mem_cons] at h
      push_neg at h
      rw [cacheLookup, if_neg fun hk => h.1 hk.symm]
      exact ih h.2

lemma cacheLookup_filter_none (cache : List (String × CacheEntry))
    (key : String) (p : String × CacheEntry → Bool)
    (h : cacheLookup cache key = none) :
    cacheLookup (cache.filter p) key = none := by
  induction cache with
  | nil => simp [cacheLookup]
  | cons q rest ih =>
      obtain ⟨k, e⟩ := q
      rw [cacheLookup] at h
      by_cases hk : k = key
      · rw [if_pos hk] at h
        exact absurd h (by simp)
      · rw [if_neg hk] at h
        rw [List.filter_cons]
        split
        · rw [cacheLookup, if_neg hk]
          exact ih h
        · exact ih h

lemma cacheLookup_filter_of_dropped (cache : List (String × CacheEntry))
    (key : String) (e : CacheEntry) (p : String × CacheEntry → Bool) :
    cacheLookup cache key = some e → (cache.map Prod.fst).Nodup →
    p (key, e) = false → cacheLookup (cache.filter p) key = none := by
  induction cache with
  | nil => intro h; exact absurd h (by simp [cacheLookup])
  | cons q rest ih =>
      intro hl hnd hp
      obtain ⟨k, a⟩ := q
      simp only [List.map_cons, List.nodup_cons] at hnd
      rw [cacheLookup] at hl
      by_cases hk : k = key
      · rw [if_pos hk] at hl
        simp only [Option.some.injEq] at hl
        subst hl
        subst hk
        rw [List.filter_cons, hp]
        simp only [Bool.false_eq_true, if_false]
        exact cacheLookup_filter_none rest k p
          (cacheLookup_eq_none_of_not_mem rest k hnd.1)
      · rw [if_neg hk] at hl
        rw [List.filter_cons]
        split
        · rw [cacheLookup, if_neg hk]
          exact ih hl hnd.2 hp
        · exact ih hl hnd.2 hp

/-- C1: TTL correctness of the cache: for every stored entry, a lookup
returns no hit once `now - insertedAt > ttl` (the lazy expiry check, with no
sweep involved), and immediately after an insert at time `now`, a lookup at
the same time returns the stored value (for any positive configured ttl). -/
theorem cache_ttl_correctness
    (cache : List (String × CacheEntry)) (key : String) (e : CacheEntry)
    (v : Payload) (now ttl : Nat) :
    (cacheLookup cache key = some e → ttl < now - e.timestamp →
      cacheGet cache key now ttl = none)
    ∧ (0 < ttl → cacheGet (cacheSet cache key v now) key now ttl = some v) := by
  constructor
  · intro hl hexp
    rw [cacheGet, hl]
    show (if now - e.timestamp < ttl then some e.data else none) = none
    rw [if_neg (by omega)]
  · intro httl
    rw [cacheGet, cacheLookup_cacheSet_self]
    show (if now - now < ttl then some v else none) = some v
    rw [if_pos (by omega)]

/-- Witness for C1 at a concrete one-entry cache: the entry inserted at tick 0
is not returned at tick 25 with ttl 24, and a fresh insert is returned at
once. -/
theorem cache_ttl_correctness_witness :
    cacheGet cacheW "extract:u" 25 24 = none
    ∧ cacheGet (cacheSet cacheW "extract:u" payloadW 25) "extract:u" 25 24 =
        some payloadW :=
  ⟨(cache_ttl_correctness cacheW "extract:u" entryW payloadW 25 24).1 rfl
      (by decide),
   (cache_ttl_correctness cacheW "extract:u" entryW payloadW 25 24).2
      (by decide)⟩

/-- C4 (amended): `_extract_info_sync` never fails on a truthy raw record,
and on a record with every optional field absent it produces the documented
defaults — except that the canonical URL defaults to the requested locator
`url`, not to the empty string. -/
theorem normalize_video_defaults (url : String) (fmt : Option String)
    (r : RawInfo) :
    extractInfoSync url fmt (some r) = some (cleanInfo url r)
    ∧ cleanInfo url emptyRawInfo =
      { id := "", title := "", description := "", duration := none,
        webpage_url := url, thumbnail := "", uploader := "", upload_date := "",
        view_count := none, extractor := "", extractor_key := "",
        available := true, live_status := none, tags := [], categories := [],
        formats := [], thumbnails := [] } :=
  ⟨rfl, rfl⟩

/-- Counterexample to C4 as stated: on a raw record with no `webpage_url`,
the canonical URL field is the requested locator, not the empty string. -/
theorem normalize_video_defaults_counterexample :
    (cleanInfo "http://x" emptyRawInfo).webpage_url = "http://x"
    ∧ (cleanInfo "http://x" emptyRawInfo).webpage_url ≠ "" :=
  ⟨rfl, by decide⟩

/-- C6: best-thumbnail selection agrees with the spec-modelled pick of the
first candidate attaining the greatest `(width, height)` lexicographic pair
(empty input yields `""`, never an absent value), and the candidate picked by
that rule is an element all of whose predecessors are strictly smaller and
which no element of the list exceeds. -/
theorem best_thumbnail_selection (l : List RawThumbnail) :
    (getBestThumbnail l =
      match specBestThumbnail l with
      | none => ""
      | some t => t.url.getD "")
    ∧ (l = [] → getBestThumbnail l = "")
    ∧ (∀ t, specBestThumbnail l = some t →
        ∃ pre post, l = pre ++ t :: post
          ∧ (∀ u ∈ pre, pairLt (thumbKey u) (thumbKey t) = true)
          ∧ (∀ u ∈ l, pairLe (thumbKey u) (thumbKey t) = true)) := by
  refine ⟨?_, ?_, ?_⟩
  · rw [getBestThumbnail, ← head_insertionSort_eq_specBest]
    cases List.insertionSort thumbGe l with
    | nil => rfl
    | cons t rest => rfl
  · intro h
    subst h
    rfl
  · intro t h
    exact specBestThumbnail_firstMax l t h

/-- Witness for C6 on the spec's own example
`[{w:120,h:90},{w:640,h:480},{w:640,h:360}]`: the `w:640,h:480` candidate is
the first maximum, and its url is selected. -/
theorem best_thumbnail_selection_witness :
    (∃ pre post,
        thumbsW = pre ++ (⟨none, some "u640x480", some 640, some 480, none⟩ :
          RawThumbnail) :: post
        ∧ (∀ u ∈ pre,
            pairLt (thumbKey u) (thumbKey ⟨none, some "u640x480", some 640,
              some 480, none⟩) = true)
        ∧ (∀ u ∈ thumbsW,
            pairLe (thumbKey u) (thumbKey ⟨none, some "u640x480", some 640,
              some 480, none⟩) = true))
    ∧ getBestThumbnail thumbsW = "u640x480" :=
  ⟨(best_thumbnail_selection thumbsW).2.2
      ⟨none, some "u640x480", some 640, some 480, none⟩ (by decide),
   by decide⟩

/-- C3 (amended): on a Search dispatch the query string handed to the
external collaborator is the literal word `ytsearch` followed by the limit, a
colon, and the query; the outcome of `_search_sync` depends on the external
collaborator only through its answer at exactly that string. -/
theorem search_query_rewrite (q : String) (n : Nat)
    (f g : String → ExtResult) :
    searchQueryString n q = "ytsearch" ++ toString n ++ ":" ++ q
    ∧ (f (searchQueryString n q) = g (searchQueryString n q) →
        searchSync q n f = searchSync q n g) :=
  ⟨rfl, fun h => by rw [searchSync, searchSync, h]⟩

/-- Witness for C3: two collaborators that agree at `ytsearch2:x` (one of
them raising everywhere else) induce the same search outcome. -/
theorem search_query_rewrite_witness :
    (fun s => if s = searchQueryString 2 "x" then ExtResult.value none
              else ExtResult.raised) (searchQueryString 2 "x") =
      (fun _ => ExtResult.value none) (searchQueryString 2 "x")
    ∧ searchSync "x" 2
        (fun s => if s = searchQueryString 2 "x" then ExtResult.value none
                  else ExtResult.raised) =
      searchSync "x" 2 (fun _ => ExtResult.value none) :=
  ⟨by decide,
   (search_query_rewrite "x" 2
      (fun s => if s = searchQueryString 2 "x" then ExtResult.value none
                else ExtResult.raised)
      (fun _ => ExtResult.value none)).2 (by decide)⟩

/-- Counterexample to C3 as stated: the dispatched string is not
`"search<limit>:<query>"`, and a collaborator that only answers at the
claimed string `search3:lofi` is never consulted — the search fails. -/
theorem search_query_rewrite_counterexample :
    searchQueryString 3 "lofi" ≠ "search" ++ toString 3 ++ ":" ++ "lofi"
    ∧ searchSync "lofi" 3
        (fun s => if s = "search" ++ toString 3 ++ ":" ++ "lofi" then
            ExtResult.value (some ⟨some []⟩)
          else ExtResult.raised) = none :=
  ⟨by decide, by decide⟩

/-- C7: on a Search miss whose external call yields an entry list, the result
takes at most `limit` entries, in the collaborator's order with null entries
dropped (the produced videos are a prefix of the normalisation of all
non-null entries), and `total_count` equals the number of returned videos; an
external result carrying no entries (no `entries` key, or a falsy result)
yields an empty success, never an error. -/
theorem search_result_normalization (q : String) (n : Nat)
    (external : String → ExtResult) :
    (∀ l, external (searchQueryString n q) = ExtResult.value (some ⟨some l⟩) →
      searchSync q n external =
        some { videos := ((l.take n).filterMap id).map searchVideoInfo,
               total_count :=
                 (((l.take n).filterMap id).map searchVideoInfo).length,
               query := q }
      ∧ (((l.take n).filterMap id).map searchVideoInfo).length ≤ n
      ∧ ((l.take n).filterMap id).map searchVideoInfo
          ++ ((l.drop n).filterMap id).map searchVideoInfo
          = (l.filterMap id).map searchVideoInfo)
    ∧ (external (searchQueryString n q) = ExtResult.value (some ⟨none⟩) →
        searchSync q n external =
          some { videos := [], total_count := 0, query := q })
    ∧ (external (searchQueryString n q) = ExtResult.value none →
        searchSync q n external =
          some { videos := [], total_count := 0, query := q }) := by
  refine ⟨?_, ?_, ?_⟩
  · intro l h
    refine ⟨?_, ?_, ?_⟩
    · rw [searchSync, h]
    · rw [List.length_map]
      exact le_trans (List.length_filterMap_le _ _) (List.length_take_le _ _)
    · rw [← List.map_append, ← List.filterMap_append, List.take_append_drop]
  · intro h
    rw [searchSync, h]
  · intro h
    rw [searchSync, h]

/-- Witness for C7: searching `lofi` with limit 3 against a collaborator
returning five entries (one of them null) yields two videos — at most the
limit — with `total_count` equal to the number returned. -/
theorem search_result_normalization_witness :
    extSample (searchQueryString 3 "lofi") =
      ExtResult.value (some ⟨some sampleEntries⟩)
    ∧ (searchSync "lofi" 3 extSample =
        some { videos :=
                 ((sampleEntries.take 3).filterMap id).map searchVideoInfo,
               total_count :=
                 (((sampleEntries.take 3).filterMap id).map
                   searchVideoInfo).length,
               query := "lofi" }
      ∧ (((sampleEntries.take 3).filterMap id).map searchVideoInfo).length ≤ 3
      ∧ ((sampleEntries.take 3).filterMap id).map searchVideoInfo
          ++ ((sampleEntries.drop 3).filterMap id).map searchVideoInfo
          = (sampleEntries.filterMap id).map searchVideoInfo) :=
  ⟨by decide,
   (search_result_normalization "lofi" 3 extSample).1 sampleEntries
     (by decide)⟩

/-- C2 (amended): the request counter increments exactly once on every
Resolve/Search invocation that passes validation — cache hit, miss with
success, and external failure alike — and does not increment on a validation
failure (empty locator or query), which returns before the increment. -/
theorem request_counter_exact (st : ServiceState) (url : String)
    (fmt : Option String) (raw : Option RawInfo) (now : Nat)
    (q : String) (n : Nat) (external : String → ExtResult) :
    (extract_info st url fmt raw now).2.request_count =
      st.request_count + (if url = "" then 0 else 1)
    ∧ (search st q n external now).2.request_count =
      st.request_count + (if q = "" then 0 else 1) := by
  constructor
  · by_cases h : url = ""
    · simp [extract_info, h]
    · simp only [extract_info, if_neg h]
      split
      · simp [h]
      · split <;> simp [h]
  · by_cases h : q = ""
    · simp [search, h]
    · simp only [search, if_neg h]
      split
      · simp [h]
      · split <;> simp [h]

/-- Counterexample to C2 as stated: a Resolve with an empty locator and a
Search with an empty query leave the request counter unchanged instead of
incrementing it by one. -/
theorem request_counter_validation_counterexample :
    (extract_info ⟨0, 0, [], 24⟩ "" none none 0).2.request_count = 0
    ∧ (extract_info ⟨0, 0, [], 24⟩ "" none none 0).2.request_count ≠
        (⟨0, 0, [], 24⟩ : ServiceState).request_count + 1
    ∧ (search ⟨0, 0, [], 24⟩ "" 10 (fun _ => ExtResult.raised)
        0).2.request_count = 0 :=
  ⟨by decide, by decide, by decide⟩

/-- C9 (amended): the error counter increments exactly on the modelled
failure paths — external failure or empty result on a Resolve miss, and a
raised external call on a Search miss — and is unchanged on cache hits,
successful misses, and validation failures (an empty locator or query returns
before any counter is touched). -/
theorem error_counter_exact (st : ServiceState) (url : String)
    (fmt : Option String) (raw : Option RawInfo) (now : Nat)
    (q : String) (n : Nat) (external : String → ExtResult) :
    (extract_info st url fmt raw now).2.error_count =
      st.error_count +
        (if url = "" then 0
         else
           match cacheGet st.cache ("extract:" ++ url) now st.cache_ttl with
           | some _ => 0
           | none =>
             match extractInfoSync url fmt raw with
             | some _ => 0
             | none => 1)
    ∧ (search st q n external now).2.error_count =
      st.error_count +
        (if q = "" then 0
         else
           match cacheGet st.cache ("search:" ++ q ++ ":" ++ toString n) now
               st.cache_ttl with
           | some _ => 0
           | none =>
             match searchSync q n external with
             | some _ => 0
             | none => 1) := by
  constructor
  · by_cases h : url = ""
    · simp [extract_info, h]
    · simp only [extract_info, if_neg h, if_neg (by simp [h] : ¬url = "")]
      split
      · simp
      · split <;> simp
  · by_cases h : q = ""
    · simp [search, h]
    · simp only [search, if_neg h]
      split
      · simp
      · split <;> simp

/-- Counterexample to C9 as stated: a Resolve with an empty locator and a
Search with an empty query leave the error counter unchanged instead of
incrementing it. -/
theorem error_counter_validation_counterexample :
    (extract_info ⟨0, 0, [], 24⟩ "" none none 0).2.error_count = 0
    ∧ (extract_info ⟨0, 0, [], 24⟩ "" none none 0).2.error_count ≠
        (⟨0, 0, [], 24⟩ : ServiceState).error_count + 1
    ∧ (search ⟨0, 0, [], 24⟩ "" 10 (fun _ => ExtResult.raised)
        0).2.error_count = 0 :=
  ⟨by decide, by decide, by decide⟩

/-- C5: the Resolve cache key is derived from the locator only — after a
Resolve of `url` under override `fmt1` misses, fetches and caches, an
immediate Resolve of the same `url` under any override `fmt2` is a cache hit:
it returns the metadata cached under `fmt1` and the outcome is independent of
whatever the external collaborator would now return (`raw2`). -/
theorem resolve_key_excludes_override (st : ServiceState) (url : String)
    (fmt1 fmt2 : Option String) (r : RawInfo) (raw2 : Option RawInfo)
    (now now2 : Nat)
    (hurl : url ≠ "")
    (hmiss : cacheGet st.cache ("extract:" ++ url) now st.cache_ttl = none)
    (hfresh : now2 - now < st.cache_ttl) :
    extract_info ((extract_info st url fmt1 (some r) now).2) url fmt2 raw2
        now2 =
      (Response.ok (Payload.video (cleanInfo url r)),
       { (extract_info st url fmt1 (some r) now).2 with
           request_count :=
             (extract_info st url fmt1 (some r) now).2.request_count + 1 }) := by
  have hstep : extract_info st url fmt1 (some r) now =
      (Response.ok (Payload.video (cleanInfo url r)),
       { st with request_count := st.request_count + 1,
                 cache := cacheSet st.cache ("extract:" ++ url)
                   (Payload.video (cleanInfo url r)) now }) := by
    simp only [extract_info, if_neg hurl, hmiss, extractInfoSync]
  rw [hstep]
  have hhit : cacheGet
      (cacheSet st.cache ("extract:" ++ url)
        (Payload.video (cleanInfo url r)) now)
      ("extract:" ++ url) now2 st.cache_ttl =
      some (Payload.video (cleanInfo url r)) := by
    rw [cacheGet, cacheLookup_cacheSet_self]
    show (if now2 - now < st.cache_ttl then _ else none) = _
    rw [if_pos hfresh]
  simp only [extract_info, if_neg hurl, hhit]

/-- Witness for C5: on an empty cache, resolving `u` with no override and
immediately re-resolving with override `best` (against a collaborator that
would now fail) returns the cached record. -/
theorem resolve_key_excludes_override_witness :
    ("u" : String) ≠ ""
    ∧ cacheGet stW.cache ("extract:" ++ "u") 0 stW.cache_ttl = none
    ∧ 1 - 0 < stW.cache_ttl
    ∧ extract_info ((extract_info stW "u" none (some emptyRawInfo) 0).2) "u"
        (some "best") none 1 =
      (Response.ok (Payload.video (cleanInfo "u" emptyRawInfo)),
       { (extract_info stW "u" none (some emptyRawInfo) 0).2 with
           request_count :=
             (extract_info stW "u" none (some emptyRawInfo) 0).2.request_count
               + 1 }) :=
  ⟨by decide, by decide, by decide,
   resolve_key_excludes_override stW "u" none (some "best") emptyRawInfo none
     0 1 (by decide) (by decide) (by decide)⟩

/-- C8: when the external Resolve call raises or produces an empty result
(`raw = none`) on a miss for a previously absent key, the handler returns the
404 "not found" error, increments the error counter by exactly one, and does
not mutate the cache — the key remains absent. -/
theorem resolve_external_failure (st : ServiceState) (url : String)
    (fmt : Option String) (now : Nat)
    (hurl : url ≠ "")
    (habsent : cacheLookup st.cache ("extract:" ++ url) = none) :
    extract_info st url fmt none now =
      (Response.err 404 "Failed to extract video information",
       { st with request_count := st.request_count + 1,
                 error_count := st.error_count + 1 })
    ∧ (extract_info st url fmt none now).2.cache = st.cache
    ∧ cacheLookup (extract_info st url fmt none now).2.cache
        ("extract:" ++ url) = none := by
  have hget : cacheGet st.cache ("extract:" ++ url) now st.cache_ttl = none := by
    rw [cacheGet, habsent]
  have hmain : extract_info st url fmt none now =
      (Response.err 404 "Failed to extract video information",
       { st with request_count := st.request_count + 1,
                 error_count := st.error_count + 1 }) := by
    simp only [extract_info, if_neg hurl, hget, extractInfoSync]
  refine ⟨hmain, ?_, ?_⟩
  · rw [hmain]
  · rw [hmain]
    exact habsent

/-- Witness for C8: a failing external Resolve of `u` on the empty cache
returns the 404 error, bumps only the error counter, and leaves the key
absent. -/
theorem resolve_external_failure_witness :
    ("u" : String) ≠ ""
    ∧ cacheLookup stW.cache ("extract:" ++ "u") = none
    ∧ (extract_info stW "u" none none 7 =
        (Response.err 404 "Failed to extract video information",
         { stW with request_count := stW.request_count + 1,
                    error_count := stW.error_count + 1 })
      ∧ (extract_info stW "u" none none 7).2.cache = stW.cache
      ∧ cacheLookup (extract_info stW "u" none none 7).2.cache
          ("extract:" ++ "u") = none) :=
  ⟨by decide, by decide,
   resolve_external_failure stW "u" none 7 (by decide) (by decide)⟩

/-- C10: a cache lookup never removes or modifies stored entries: an expired
entry read on a Resolve whose refetch then fails is still present, with its
original value and timestamp, and the whole cache is unchanged; the entry
disappears only through the periodic sweep (when the dict keys are distinct,
as they are in a Python dict) or through clear. -/
theorem expired_entry_survives_failed_refetch (st : ServiceState)
    (url : String) (fmt : Option String) (now : Nat) (e : CacheEntry)
    (hurl : url ≠ "")
    (hfound : cacheLookup st.cache ("extract:" ++ url) = some e)
    (hexp : st.cache_ttl < now - e.timestamp) :
    (extract_info st url fmt none now).2.cache = st.cache
    ∧ cacheLookup (extract_info st url fmt none now).2.cache
        ("extract:" ++ url) = some e
    ∧ ((st.cache.map Prod.fst).Nodup →
        cacheLookup (cleanup_cache st now).cache ("extract:" ++ url) = none)
    ∧ cacheLookup (clear_cache st).cache ("extract:" ++ url) = none := by
  have hget : cacheGet st.cache ("extract:" ++ url) now st.cache_ttl = none := by
    rw [cacheGet, hfound]
    show (if now - e.timestamp < st.cache_ttl then some e.data else none) = none
    rw [if_neg (by omega)]
  have hmain : (extract_info st url fmt none now).2.cache = st.cache := by
    simp only [extract_info, if_neg hurl, hget, extractInfoSync]
  refine ⟨hmain, ?_, ?_, ?_⟩
  · rw [hmain]
    exact hfound
  · intro hnd
    exact cacheLookup_filter_of_dropped st.cache ("extract:" ++ url) e _
      hfound hnd (by simp; omega)
  · rfl

/-- Witness for C10: an entry inserted at tick 0 with ttl 24, looked up at
tick 25 by a Resolve whose external call fails, is still cached untouched;
the sweep at tick 25 then removes it, as does clear. -/
theorem expired_entry_survives_failed_refetch_witness :
    ("u" : String) ≠ ""
    ∧ cacheLookup stExpiredW.cache ("extract:" ++ "u") = some entryW
    ∧ stExpiredW.cache_ttl < 25 - entryW.timestamp
    ∧ ((extract_info stExpiredW "u" none none 25).2.cache = stExpiredW.cache
      ∧ cacheLookup (extract_info stExpiredW "u" none none 25).2.cache
          ("extract:" ++ "u") = some entryW
      ∧ ((stExpiredW.cache.map Prod.fst).Nodup →
          cacheLookup (cleanup_cache stExpiredW 25).cache ("extract:" ++ "u") =
            none)
      ∧ cacheLookup (clear_cache stExpiredW).cache ("extract:" ++ "u") =
          none) :=
  ⟨by decide, by decide, by decide,
   expired_entry_survives_failed_refetch stExpiredW "u" none 25 entryW
     (by decide) (by decide) (by decide)⟩
